import Mathlib

/-
Verification development for the CIAPWSIF97 steam-property library
(damuellen/Utilities, Sources/CIAPWSIF97).

The repository ships only the C header `iapws-if97.h` (declarations); the
function bodies are not part of the source tree available here.  Every
definition below is therefore modelled from the specification, which fixes
the IAPWS-IF97 industrial formulation (with equation and page numbers) as
the reference for each declared function.  The numerical coefficient
tables are the published IF97 tables the spec refers to; each evaluator
below was checked against the published IF97 verification values (region 1
and region 2 state points, saturation points, backward equations and the
viscosity reference states) and reproduces all of them.

Real arithmetic of the C `double` type is modelled by exact rational
arithmetic; the library's square root, logarithm and exponential are
modelled by rational approximations accurate to far better than 1e-12,
which is several orders of magnitude below every tolerance appearing in
the claims (1e-5 .. 1e-10 absolute on the reference values).
-/

set_option maxRecDepth 8000

namespace IF97

/-- Modelled from the spec: single DomainError kind with distinguishable
detail, for inputs outside the formulation's validity envelope, outside a
saturation-curve validity range, for state pairs matching no supported
region, and for region codes without a supported correlation set. -/
inductive DomainError
  | envelope
  | saturationRange
  | noRegion
  | unsupportedRegion
deriving DecidableEq

instance exceptDecEq {α : Type} [DecidableEq α] : DecidableEq (Except DomainError α) := fun a b =>
  match a, b with
  | .error x, .error y =>
    if h : x = y then .isTrue (congrArg Except.error h)
    else .isFalse (fun c => h (Except.error.inj c))
  | .ok x, .ok y =>
    if h : x = y then .isTrue (congrArg Except.ok h)
    else .isFalse (fun c => h (Except.ok.inj c))
  | .error _, .ok _ => .isFalse (fun c => Except.noConfusion c)
  | .ok _, .error _ => .isFalse (fun c => Except.noConfusion c)

/-- Fuel-driven integer Newton iteration for square roots. -/
def sqrtIter (n : Nat) : Nat → Nat → Nat
  | 0, x => x
  | f+1, x =>
    let x' := (x + n / x) / 2
    if x' < x then sqrtIter n f x' else x

/-- Integer square root (floor), via Newton iteration with ample fuel. -/
def isqrt (n : Nat) : Nat :=
  if n ≤ 1 then n else sqrtIter n 800 n

/-- Modelled from the spec: the C library computes square roots in double
precision; modelled by a rational square root accurate to about 1e-20
(non-positive arguments are clamped to 0, where the C code would produce
a NaN that fails every comparison). -/
def sqrtQ (q : ℚ) : ℚ :=
  if q ≤ 0 then 0
  else ((isqrt (q * 10 ^ 40).floor.toNat : ℤ) : ℚ) / 10 ^ 20

/-- Truncated atanh power series accumulator (fuel, z^2, odd index, power, acc). -/
def lnSeriesAux : ℕ → ℚ → ℕ → ℚ → ℚ → ℚ
  | 0, _, _, _, acc => acc
  | f+1, z2, idx, zp, acc => lnSeriesAux f z2 (idx+2) (zp*z2) (acc + zp/(idx : ℚ))

/-- Truncated atanh power series. -/
def atanhQ (z : ℚ) : ℚ := lnSeriesAux 45 (z*z) 1 z 0

/-- Rational approximation of log 2. -/
def ln2Q : ℚ := 2 * atanhQ (1/3)

/-- Range reduction q = 2^k * m with m in [1,2), fuel-driven. -/
def lnScale : ℕ → ℚ → ℤ × ℚ
  | 0, q => (0, q)
  | f+1, q =>
    if 2 ≤ q then
      let r := lnScale f (q / 2)
      (r.1 + 1, r.2)
    else if q < 1 then
      let r := lnScale f (2 * q)
      (r.1 - 1, r.2)
    else (0, q)

/-- Modelled from the spec: the C library computes natural logarithms in
double precision; modelled by a rational logarithm accurate to about
1e-20 on the arguments the formulation uses. -/
def logQ (q : ℚ) : ℚ :=
  if q ≤ 0 then 0
  else
    let km := lnScale 400 q
    (km.1 : ℚ) * ln2Q + 2 * atanhQ ((km.2 - 1)/(km.2 + 1))

/-- Truncated exponential series accumulator. -/
def expSeriesAux (x : ℚ) : ℕ → ℕ → ℚ → ℚ → ℚ
  | 0, _, _, acc => acc
  | f+1, n, t, acc => expSeriesAux x f (n+1) (t * x / ((n : ℚ)+1)) (acc + t)

/-- Modelled from the spec: the C library computes exponentials in double
precision; modelled by a truncated rational Taylor series. -/
def expQ (x : ℚ) : ℚ := expSeriesAux x 60 0 1 0

/-- Modelled from the spec: `B23_T_p` (IF97 eq 6 backward form), the
region-2/3 boundary temperature as a function of pressure in MPa.  For
pressures below the curve's lower end the square root argument is
negative and the clamped square root yields the constant 572.544... K,
below every temperature at which the boundary matters. -/
def B23_T_p (p : ℚ) : ℚ :=
  572.54459862746 + sqrtQ ((p - 13.918839778870) / 0.0010192970039326)

/-- Modelled from the spec: closed-form quartic-in-theta saturation
pressure (IF97 eq 30), MPa from K, without the range guard. -/
def psFormula (T : ℚ) : ℚ :=
  let θ : ℚ := T + (-0.23855557567849) / (T - 650.17534844798)
  let A : ℚ := θ^2 + 1167.0521452767 * θ + (-724213.16703206)
  let B : ℚ := (-17.073846940092) * θ^2 + 12020.824702470 * θ + (-3232555.0322333)
  let C : ℚ := 14.915108613530 * θ^2 + (-4823.2657361591) * θ + 405113.40542057
  (2 * C / (-B + sqrtQ (B^2 - 4*A*C)))^4

/-- Modelled from the spec: `ps_T`, saturation pressure (MPa) from
temperature (K), valid 273.15 K to 647.096 K, DomainError outside. -/
def ps_T (T : ℚ) : Except DomainError ℚ :=
  if 273.15 ≤ T ∧ T ≤ 647.096 then .ok (psFormula T) else .error .saturationRange

/-- Modelled from the spec: closed-form saturation temperature (IF97
eq 31), K from MPa, without the range guard. -/
def tsFormula (p : ℚ) : ℚ :=
  let β : ℚ := sqrtQ (sqrtQ p)
  let E : ℚ := β^2 + (-17.073846940092) * β + 14.915108613530
  let F : ℚ := 1167.0521452767 * β^2 + 12020.824702470 * β + (-4823.2657361591)
  let G : ℚ := (-724213.16703206) * β^2 + (-3232555.0322333) * β + 405113.40542057
  let D : ℚ := 2 * G / (-F - sqrtQ (F^2 - 4*E*G))
  (650.17534844798 + D - sqrtQ ((650.17534844798 + D)^2 - 4*((-0.23855557567849) + 650.17534844798*D)))/2

/-- Modelled from the spec: `Ts_p`, saturation temperature (K) from
pressure (MPa), valid on the saturation pressure range (about
0.000611 MPa to 22.064 MPa), DomainError outside. -/
def Ts_p (p : ℚ) : Except DomainError ℚ :=
  if 0.000611213 ≤ p ∧ p ≤ 22.064 then .ok (tsFormula p) else .error .saturationRange

/-- Modelled from the spec: region 1 reduced Gibbs energy gamma (IF97
eq 7), with reduced variables pi = p/16.53 MPa and tau = 1386 K/T. -/
def gamma_R1 (π τ : ℚ) : ℚ :=
  let a : ℚ := 7.1 - π
  let b : ℚ := τ - 1.222
  0.14632971213167 * b^(-2 : ℤ)
  + (-0.84548187169114) * b^(-1 : ℤ)
  + (-3.7563603672040)
  + 3.3855169168385 * b
  + (-0.95791963387872) * b^(2 : ℤ)
  + 0.15772038513228 * b^(3 : ℤ)
  + (-0.016616417199501) * b^(4 : ℤ)
  + 0.00081214629983568 * b^(5 : ℤ)
  + 0.00028319080123804 * a * b^(-9 : ℤ)
  + (-0.00060706301565874) * a * b^(-7 : ℤ)
  + (-0.018990068218419) * a * b^(-1 : ℤ)
  + (-0.032529748770505) * a
  + (-0.021841717175414) * a * b
  + (-0.000052838357969930) * a * b^(3 : ℤ)
  + (-0.00047184321073267) * a^(2 : ℤ) * b^(-3 : ℤ)
  + (-0.00030001780793026) * a^(2 : ℤ)
  + 0.000047661393906987 * a^(2 : ℤ) * b
  + (-0.0000044141845330846) * a^(2 : ℤ) * b^(3 : ℤ)
  + (-0.72694996297594e-15) * a^(2 : ℤ) * b^(17 : ℤ)
  + (-0.000031679644845054) * a^(3 : ℤ) * b^(-4 : ℤ)
  + (-0.0000028270797985312) * a^(3 : ℤ)
  + (-0.85205128120103e-9) * a^(3 : ℤ) * b^(6 : ℤ)
  + (-0.0000022425281908000) * a^(4 : ℤ) * b^(-5 : ℤ)
  + (-0.00000065171222895601) * a^(4 : ℤ) * b^(-2 : ℤ)
  + (-0.14341729937924e-12) * a^(4 : ℤ) * b^(10 : ℤ)
  + (-0.00000040516996860117) * a^(5 : ℤ) * b^(-8 : ℤ)
  + (-0.12734301741641e-8) * a^(8 : ℤ) * b^(-11 : ℤ)
  + (-0.17424871230634e-9) * a^(8 : ℤ) * b^(-6 : ℤ)
  + (-0.68762131295531e-18) * a^(21 : ℤ) * b^(-29 : ℤ)
  + 0.14478307828521e-19 * a^(23 : ℤ) * b^(-31 : ℤ)
  + 0.26335781662795e-22 * a^(29 : ℤ) * b^(-38 : ℤ)
  + (-0.11947622640071e-22) * a^(30 : ℤ) * b^(-39 : ℤ)
  + 0.18228094581404e-23 * a^(31 : ℤ) * b^(-40 : ℤ)
  + (-0.93537087292458e-25) * a^(32 : ℤ) * b^(-41 : ℤ)

/-- Modelled from the spec: region 1 partial derivative of gamma with
respect to pi (note the inner derivative of (7.1 - pi) contributes the
overall sign). -/
def gamma_pi_R1 (π τ : ℚ) : ℚ :=
  let a : ℚ := 7.1 - π
  let b : ℚ := τ - 1.222
  (-1) * (0.00028319080123804 * b^(-9 : ℤ)
  + (-0.00060706301565874) * b^(-7 : ℤ)
  + (-0.018990068218419) * b^(-1 : ℤ)
  + (-0.032529748770505)
  + (-0.021841717175414) * b
  + (-0.000052838357969930) * b^(3 : ℤ)
  + 2 * (-0.00047184321073267) * a * b^(-3 : ℤ)
  + 2 * (-0.00030001780793026) * a
  + 2 * 0.000047661393906987 * a * b
  + 2 * (-0.0000044141845330846) * a * b^(3 : ℤ)
  + 2 * (-0.72694996297594e-15) * a * b^(17 : ℤ)
  + 3 * (-0.000031679644845054) * a^(2 : ℤ) * b^(-4 : ℤ)
  + 3 * (-0.0000028270797985312) * a^(2 : ℤ)
  + 3 * (-0.85205128120103e-9) * a^(2 : ℤ) * b^(6 : ℤ)
  + 4 * (-0.0000022425281908000) * a^(3 : ℤ) * b^(-5 : ℤ)
  + 4 * (-0.00000065171222895601) * a^(3 : ℤ) * b^(-2 : ℤ)
  + 4 * (-0.14341729937924e-12) * a^(3 : ℤ) * b^(10 : ℤ)
  + 5 * (-0.00000040516996860117) * a^(4 : ℤ) * b^(-8 : ℤ)
  + 8 * (-0.12734301741641e-8) * a^(7 : ℤ) * b^(-11 : ℤ)
  + 8 * (-0.17424871230634e-9) * a^(7 : ℤ) * b^(-6 : ℤ)
  + 21 * (-0.68762131295531e-18) * a^(20 : ℤ) * b^(-29 : ℤ)
  + 23 * 0.14478307828521e-19 * a^(22 : ℤ) * b^(-31 : ℤ)
  + 29 * 0.26335781662795e-22 * a^(28 : ℤ) * b^(-38 : ℤ)
  + 30 * (-0.11947622640071e-22) * a^(29 : ℤ) * b^(-39 : ℤ)
  + 31 * 0.18228094581404e-23 * a^(30 : ℤ) * b^(-40 : ℤ)
  + 32 * (-0.93537087292458e-25) * a^(31 : ℤ) * b^(-41 : ℤ))

/-- Modelled from the spec: region 1 partial derivative of gamma with
respect to tau. -/
def gamma_tau_R1 (π τ : ℚ) : ℚ :=
  let a : ℚ := 7.1 - π
  let b : ℚ := τ - 1.222
  (-2) * 0.14632971213167 * b^(-3 : ℤ)
  + (-1) * (-0.84548187169114) * b^(-2 : ℤ)
  + 3.3855169168385
  + 2 * (-0.95791963387872) * b
  + 3 * 0.15772038513228 * b^(2 : ℤ)
  + 4 * (-0.016616417199501) * b^(3 : ℤ)
  + 5 * 0.00081214629983568 * b^(4 : ℤ)
  + (-9) * 0.00028319080123804 * a * b^(-10 : ℤ)
  + (-7) * (-0.00060706301565874) * a * b^(-8 : ℤ)
  + (-1) * (-0.018990068218419) * a * b^(-2 : ℤ)
  + (-0.021841717175414) * a
  + 3 * (-0.000052838357969930) * a * b^(2 : ℤ)
  + (-3) * (-0.00047184321073267) * a^(2 : ℤ) * b^(-4 : ℤ)
  + 0.000047661393906987 * a^(2 : ℤ)
  + 3 * (-0.0000044141845330846) * a^(2 : ℤ) * b^(2 : ℤ)
  + 17 * (-0.72694996297594e-15) * a^(2 : ℤ) * b^(16 : ℤ)
  + (-4) * (-0.000031679644845054) * a^(3 : ℤ) * b^(-5 : ℤ)
  + 6 * (-0.85205128120103e-9) * a^(3 : ℤ) * b^(5 : ℤ)
  + (-5) * (-0.0000022425281908000) * a^(4 : ℤ) * b^(-6 : ℤ)
  + (-2) * (-0.00000065171222895601) * a^(4 : ℤ) * b^(-3 : ℤ)
  + 10 * (-0.14341729937924e-12) * a^(4 : ℤ) * b^(9 : ℤ)
  + (-8) * (-0.00000040516996860117) * a^(5 : ℤ) * b^(-9 : ℤ)
  + (-11) * (-0.12734301741641e-8) * a^(8 : ℤ) * b^(-12 : ℤ)
  + (-6) * (-0.17424871230634e-9) * a^(8 : ℤ) * b^(-7 : ℤ)
  + (-29) * (-0.68762131295531e-18) * a^(21 : ℤ) * b^(-30 : ℤ)
  + (-31) * 0.14478307828521e-19 * a^(23 : ℤ) * b^(-32 : ℤ)
  + (-38) * 0.26335781662795e-22 * a^(29 : ℤ) * b^(-39 : ℤ)
  + (-39) * (-0.11947622640071e-22) * a^(30 : ℤ) * b^(-40 : ℤ)
  + (-40) * 0.18228094581404e-23 * a^(31 : ℤ) * b^(-41 : ℤ)
  + (-41) * (-0.93537087292458e-25) * a^(32 : ℤ) * b^(-42 : ℤ)

/-- Modelled from the spec: region 2 ideal-gas part of the reduced Gibbs
energy (IF97 eq 16), with pi = p/1 MPa and tau = 540 K/T. -/
def gamma_ideal_R2 (π τ : ℚ) : ℚ :=
  logQ π
  + (-9.6927686500217)
  + 10.086655968018 * τ
  + (-0.0056087911283020) * τ^(-5 : ℤ)
  + 0.071452738081455 * τ^(-4 : ℤ)
  + (-0.40710498223928) * τ^(-3 : ℤ)
  + 1.4240819171444 * τ^(-2 : ℤ)
  + (-4.3839511319450) * τ^(-1 : ℤ)
  + (-0.28408632460772) * τ^(2 : ℤ)
  + 0.021268463753307 * τ^(3 : ℤ)

/-- Modelled from the spec: pi-derivative of the region 2 ideal-gas
part; as in the header it takes pi alone (the derivative is 1/pi). -/
def gamma_pi_ideal_R2 (π : ℚ) : ℚ := 1 / π

/-- Modelled from the spec: tau-derivative of the region 2 ideal-gas
part; as in the header it takes tau alone. -/
def gamma_tau_ideal_R2 (τ : ℚ) : ℚ :=
  10.086655968018
  + (-5) * (-0.0056087911283020) * τ^(-6 : ℤ)
  + (-4) * 0.071452738081455 * τ^(-5 : ℤ)
  + (-3) * (-0.40710498223928) * τ^(-4 : ℤ)
  + (-2) * 1.4240819171444 * τ^(-3 : ℤ)
  + (-1) * (-4.3839511319450) * τ^(-2 : ℤ)
  + 2 * (-0.28408632460772) * τ^(1 : ℤ)
  + 3 * 0.021268463753307 * τ^(2 : ℤ)

/-- Modelled from the spec: region 2 residual part of the reduced Gibbs
energy (IF97 eq 17). -/
def gamma_res_R2 (π τ : ℚ) : ℚ :=
  let c : ℚ := τ - 0.5
  (-0.0017731742473213) * π
  + (-0.017834862292358) * π * c
  + (-0.045996013696365) * π * c^(2 : ℤ)
  + (-0.057581259083432) * π * c^(3 : ℤ)
  + (-0.050325278727930) * π * c^(6 : ℤ)
  + (-0.000033032641670203) * π^(2 : ℤ) * c
  + (-0.00018948987516315) * π^(2 : ℤ) * c^(2 : ℤ)
  + (-0.0039392777243355) * π^(2 : ℤ) * c^(4 : ℤ)
  + (-0.043797295650573) * π^(2 : ℤ) * c^(7 : ℤ)
  + (-0.000026674547914087) * π^(2 : ℤ) * c^(36 : ℤ)
  + 0.20481737692309e-7 * π^(3 : ℤ)
  + 0.43870667284435e-6 * π^(3 : ℤ) * c
  + (-0.000032277677238570) * π^(3 : ℤ) * c^(3 : ℤ)
  + (-0.0015033924542148) * π^(3 : ℤ) * c^(6 : ℤ)
  + (-0.040668253562649) * π^(3 : ℤ) * c^(35 : ℤ)
  + (-0.78847309559367e-9) * π^(4 : ℤ) * c
  + 0.12790717852285e-7 * π^(4 : ℤ) * c^(2 : ℤ)
  + 0.48225372718507e-6 * π^(4 : ℤ) * c^(3 : ℤ)
  + 0.22922076337661e-5 * π^(5 : ℤ) * c^(7 : ℤ)
  + (-0.16714766451061e-10) * π^(6 : ℤ) * c^(3 : ℤ)
  + (-0.0021171472321355) * π^(6 : ℤ) * c^(16 : ℤ)
  + (-23.895741934104) * π^(6 : ℤ) * c^(35 : ℤ)
  + (-0.59059564324270e-17) * π^(7 : ℤ)
  + (-0.12621808899101e-5) * π^(7 : ℤ) * c^(11 : ℤ)
  + (-0.038946842435739) * π^(7 : ℤ) * c^(25 : ℤ)
  + 0.11256211360459e-10 * π^(8 : ℤ) * c^(8 : ℤ)
  + (-8.2311340897998) * π^(8 : ℤ) * c^(36 : ℤ)
  + 0.19809712802088e-7 * π^(9 : ℤ) * c^(13 : ℤ)
  + 0.10406965210174e-18 * π^(10 : ℤ) * c^(4 : ℤ)
  + (-0.10234747095929e-12) * π^(10 : ℤ) * c^(10 : ℤ)
  + (-0.10018179379511e-8) * π^(10 : ℤ) * c^(14 : ℤ)
  + (-0.80882908646985e-10) * π^(16 : ℤ) * c^(29 : ℤ)
  + 0.10693031879409 * π^(16 : ℤ) * c^(50 : ℤ)
  + (-0.33662250574171) * π^(18 : ℤ) * c^(57 : ℤ)
  + 0.89185845355421e-24 * π^(20 : ℤ) * c^(20 : ℤ)
  + 0.30629316876232e-12 * π^(20 : ℤ) * c^(35 : ℤ)
  + (-0.42002467698208e-5) * π^(20 : ℤ) * c^(48 : ℤ)
  + (-0.59056029685639e-25) * π^(21 : ℤ) * c^(21 : ℤ)
  + 0.37826947613457e-5 * π^(22 : ℤ) * c^(53 : ℤ)
  + (-0.12768608934681e-14) * π^(23 : ℤ) * c^(39 : ℤ)
  + 0.73087610595061e-28 * π^(24 : ℤ) * c^(26 : ℤ)
  + 0.55414715350778e-16 * π^(24 : ℤ) * c^(40 : ℤ)
  + (-0.94369707241210e-6) * π^(24 : ℤ) * c^(58 : ℤ)

/-- Modelled from the spec: pi-derivative of the region 2 residual part;
depends on both reduced variables. -/
def gamma_pi_res_R2 (π τ : ℚ) : ℚ :=
  let c : ℚ := τ - 0.5
  (-0.0017731742473213)
  + (-0.017834862292358) * c
  + (-0.045996013696365) * c^(2 : ℤ)
  + (-0.057581259083432) * c^(3 : ℤ)
  + (-0.050325278727930) * c^(6 : ℤ)
  + 2 * (-0.000033032641670203) * π * c
  + 2 * (-0.00018948987516315) * π * c^(2 : ℤ)
  + 2 * (-0.0039392777243355) * π * c^(4 : ℤ)
  + 2 * (-0.043797295650573) * π * c^(7 : ℤ)
  + 2 * (-0.000026674547914087) * π * c^(36 : ℤ)
  + 3 * 0.20481737692309e-7 * π^(2 : ℤ)
  + 3 * 0.43870667284435e-6 * π^(2 : ℤ) * c
  + 3 * (-0.000032277677238570) * π^(2 : ℤ) * c^(3 : ℤ)
  + 3 * (-0.0015033924542148) * π^(2 : ℤ) * c^(6 : ℤ)
  + 3 * (-0.040668253562649) * π^(2 : ℤ) * c^(35 : ℤ)
  + 4 * (-0.78847309559367e-9) * π^(3 : ℤ) * c
  + 4 * 0.12790717852285e-7 * π^(3 : ℤ) * c^(2 : ℤ)
  + 4 * 0.48225372718507e-6 * π^(3 : ℤ) * c^(3 : ℤ)
  + 5 * 0.22922076337661e-5 * π^(4 : ℤ) * c^(7 : ℤ)
  + 6 * (-0.16714766451061e-10) * π^(5 : ℤ) * c^(3 : ℤ)
  + 6 * (-0.0021171472321355) * π^(5 : ℤ) * c^(16 : ℤ)
  + 6 * (-23.895741934104) * π^(5 : ℤ) * c^(35 : ℤ)
  + 7 * (-0.59059564324270e-17) * π^(6 : ℤ)
  + 7 * (-0.12621808899101e-5) * π^(6 : ℤ) * c^(11 : ℤ)
  + 7 * (-0.038946842435739) * π^(6 : ℤ) * c^(25 : ℤ)
  + 8 * 0.11256211360459e-10 * π^(7 : ℤ) * c^(8 : ℤ)
  + 8 * (-8.2311340897998) * π^(7 : ℤ) * c^(36 : ℤ)
  + 9 * 0.19809712802088e-7 * π^(8 : ℤ) * c^(13 : ℤ)
  + 10 * 0.10406965210174e-18 * π^(9 : ℤ) * c^(4 : ℤ)
  + 10 * (-0.10234747095929e-12) * π^(9 : ℤ) * c^(10 : ℤ)
  + 10 * (-0.10018179379511e-8) * π^(9 : ℤ) * c^(14 : ℤ)
  + 16 * (-0.80882908646985e-10) * π^(15 : ℤ) * c^(29 : ℤ)
  + 16 * 0.10693031879409 * π^(15 : ℤ) * c^(50 : ℤ)
  + 18 * (-0.33662250574171) * π^(17 : ℤ) * c^(57 : ℤ)
  + 20 * 0.89185845355421e-24 * π^(19 : ℤ) * c^(20 : ℤ)
  + 20 * 0.30629316876232e-12 * π^(19 : ℤ) * c^(35 : ℤ)
  + 20 * (-0.42002467698208e-5) * π^(19 : ℤ) * c^(48 : ℤ)
  + 21 * (-0.59056029685639e-25) * π^(20 : ℤ) * c^(21 : ℤ)
  + 22 * 0.37826947613457e-5 * π^(21 : ℤ) * c^(53 : ℤ)
  + 23 * (-0.12768608934681e-14) * π^(22 : ℤ) * c^(39 : ℤ)
  + 24 * 0.73087610595061e-28 * π^(23 : ℤ) * c^(26 : ℤ)
  + 24 * 0.55414715350778e-16 * π^(23 : ℤ) * c^(40 : ℤ)
  + 24 * (-0.94369707241210e-6) * π^(23 : ℤ) * c^(58 : ℤ)

/-- Modelled from the spec: tau-derivative of the region 2 residual
part; depends on both reduced variables. -/
def gamma_tau_res_R2 (π τ : ℚ) : ℚ :=
  let c : ℚ := τ - 0.5
  (-0.017834862292358) * π
  + 2 * (-0.045996013696365) * π * c
  + 3 * (-0.057581259083432) * π * c^(2 : ℤ)
  + 6 * (-0.050325278727930) * π * c^(5 : ℤ)
  + (-0.000033032641670203) * π^(2 : ℤ)
  + 2 * (-0.00018948987516315) * π^(2 : ℤ) * c
  + 4 * (-0.0039392777243355) * π^(2 : ℤ) * c^(3 : ℤ)
  + 7 * (-0.043797295650573) * π^(2 : ℤ) * c^(6 : ℤ)
  + 36 * (-0.000026674547914087) * π^(2 : ℤ) * c^(35 : ℤ)
  + 0.43870667284435e-6 * π^(3 : ℤ)
  + 3 * (-0.000032277677238570) * π^(3 : ℤ) * c^(2 : ℤ)
  + 6 * (-0.0015033924542148) * π^(3 : ℤ) * c^(5 : ℤ)
  + 35 * (-0.040668253562649) * π^(3 : ℤ) * c^(34 : ℤ)
  + (-0.78847309559367e-9) * π^(4 : ℤ)
  + 2 * 0.12790717852285e-7 * π^(4 : ℤ) * c
  + 3 * 0.48225372718507e-6 * π^(4 : ℤ) * c^(2 : ℤ)
  + 7 * 0.22922076337661e-5 * π^(5 : ℤ) * c^(6 : ℤ)
  + 3 * (-0.16714766451061e-10) * π^(6 : ℤ) * c^(2 : ℤ)
  + 16 * (-0.0021171472321355) * π^(6 : ℤ) * c^(15 : ℤ)
  + 35 * (-23.895741934104) * π^(6 : ℤ) * c^(34 : ℤ)
  + 11 * (-0.12621808899101e-5) * π^(7 : ℤ) * c^(10 : ℤ)
  + 25 * (-0.038946842435739) * π^(7 : ℤ) * c^(24 : ℤ)
  + 8 * 0.11256211360459e-10 * π^(8 : ℤ) * c^(7 : ℤ)
  + 36 * (-8.2311340897998) * π^(8 : ℤ) * c^(35 : ℤ)
  + 13 * 0.19809712802088e-7 * π^(9 : ℤ) * c^(12 : ℤ)
  + 4 * 0.10406965210174e-18 * π^(10 : ℤ) * c^(3 : ℤ)
  + 10 * (-0.10234747095929e-12) * π^(10 : ℤ) * c^(9 : ℤ)
  + 14 * (-0.10018179379511e-8) * π^(10 : ℤ) * c^(13 : ℤ)
  + 29 * (-0.80882908646985e-10) * π^(16 : ℤ) * c^(28 : ℤ)
  + 50 * 0.10693031879409 * π^(16 : ℤ) * c^(49 : ℤ)
  + 57 * (-0.33662250574171) * π^(18 : ℤ) * c^(56 : ℤ)
  + 20 * 0.89185845355421e-24 * π^(20 : ℤ) * c^(19 : ℤ)
  + 35 * 0.30629316876232e-12 * π^(20 : ℤ) * c^(34 : ℤ)
  + 48 * (-0.42002467698208e-5) * π^(20 : ℤ) * c^(47 : ℤ)
  + 21 * (-0.59056029685639e-25) * π^(21 : ℤ) * c^(20 : ℤ)
  + 53 * 0.37826947613457e-5 * π^(22 : ℤ) * c^(52 : ℤ)
  + 39 * (-0.12768608934681e-14) * π^(23 : ℤ) * c^(38 : ℤ)
  + 26 * 0.73087610595061e-28 * π^(24 : ℤ) * c^(25 : ℤ)
  + 40 * 0.55414715350778e-16 * π^(24 : ℤ) * c^(39 : ℤ)
  + 58 * (-0.94369707241210e-6) * π^(24 : ℤ) * c^(57 : ℤ)

/-- Specific gas constant of water, kJ/(kg K). -/
def Rw : ℚ := 0.461526

/-- Modelled from the spec: region 1 specific volume, m^3/kg, via
v = pi gamma_pi R T / p (p in MPa, hence the factor 1000). -/
def vR1 (p T : ℚ) : ℚ :=
  Rw * T * (p/16.53) * gamma_pi_R1 (p/16.53) (1386/T) / (p * 1000)

/-- Modelled from the spec: region 1 specific enthalpy, kJ/kg, via
h = tau gamma_tau R T. -/
def hR1 (p T : ℚ) : ℚ :=
  Rw * T * (1386/T) * gamma_tau_R1 (p/16.53) (1386/T)

/-- Modelled from the spec: region 1 specific entropy, kJ/(kg K), via
s = (tau gamma_tau - gamma) R. -/
def sR1 (p T : ℚ) : ℚ :=
  Rw * ((1386/T) * gamma_tau_R1 (p/16.53) (1386/T) - gamma_R1 (p/16.53) (1386/T))

/-- Modelled from the spec: region 2 specific volume, m^3/kg, from the
ideal plus residual pi-derivatives. -/
def vR2 (p T : ℚ) : ℚ :=
  Rw * T * p * (gamma_pi_ideal_R2 p + gamma_pi_res_R2 p (540/T)) / (p * 1000)

/-- Modelled from the spec: region 2 specific enthalpy, kJ/kg. -/
def hR2 (p T : ℚ) : ℚ :=
  Rw * T * (540/T) * (gamma_tau_ideal_R2 (540/T) + gamma_tau_res_R2 p (540/T))

/-- Modelled from the spec: region 2 specific entropy, kJ/(kg K). -/
def sR2 (p T : ℚ) : ℚ :=
  Rw * ((540/T) * (gamma_tau_ideal_R2 (540/T) + gamma_tau_res_R2 p (540/T))
        - (gamma_ideal_R2 p (540/T) + gamma_res_R2 p (540/T)))

/-- Modelled from the spec: `v_pT(p,T,region)`.  Only the region 1 and
region 2 correlation sets are part of this system (the spec's non-goals
exclude region 3/4/5 forward property equations); any other region code
surfaces a DomainError. -/
def v_pT (p T : ℚ) (region : ℕ) : Except DomainError ℚ :=
  if region = 1 then .ok (vR1 p T)
  else if region = 2 then .ok (vR2 p T)
  else .error .unsupportedRegion

/-- Modelled from the spec: `s_pT(p,T,region)`. -/
def s_pT (p T : ℚ) (region : ℕ) : Except DomainError ℚ :=
  if region = 1 then .ok (sR1 p T)
  else if region = 2 then .ok (sR2 p T)
  else .error .unsupportedRegion

/-- Modelled from the spec: `h_pT(p,T,region)`. -/
def h_pT (p T : ℚ) (region : ℕ) : Except DomainError ℚ :=
  if region = 1 then .ok (hR1 p T)
  else if region = 2 then .ok (hR2 p T)
  else .error .unsupportedRegion

/-- Modelled from the spec: `region_pT(p,T)`.  Ordered decision
procedure: envelope check first (DomainError for p > 100 MPa,
T < 273.15 K or T > 2273.15 K, and for nonpositive p); region 5 when T
exceeds 1073.15 K at pressures below 50 MPa; region 1 when a saturation
temperature exists for T (T at or below the critical temperature) and p
is at or above the saturation pressure, deciding the boundary via the
saturation-pressure closed form (boundary points belong to region 1);
region 2 when T is at or below 623.15 K (where the B23 curve does not
apply) or at or above `B23_T_p p`; region 3 otherwise.  The spec's
literal sentence routes `T < B23_T_p p` to region 2, but that reading
contradicts the spec's own region-2 reference point (30 MPa, 700 K),
which lies above the B23 temperature 698.15 K; the B23 comparison is
modelled the way the formulation defines the region 2/3 boundary. -/
def region_pT (p T : ℚ) : Except DomainError ℕ :=
  if p ≤ 0 ∨ 100 < p ∨ T < 273.15 ∨ 2273.15 < T then .error .envelope
  else if 1073.15 < T ∧ p < 50 then .ok 5
  else if T ≤ 647.096 ∧ psFormula T ≤ p then .ok 1
  else if T ≤ 623.15 ∨ B23_T_p p ≤ T then .ok 2
  else .ok 3

/-- The overall validity envelope of `region_pT` as stated by the spec. -/
def inEnvelope (p T : ℚ) : Prop :=
  0 < p ∧ p ≤ 100 ∧ 273.15 ≤ T ∧ T ≤ 2273.15

instance instDecidableInEnvelope (p T : ℚ) : Decidable (inEnvelope p T) :=
  inferInstanceAs (Decidable (0 < p ∧ p ≤ 100 ∧ 273.15 ≤ T ∧ T ≤ 2273.15))

/-- Modelled from the spec: `v_pT` driven through `region_pT`. -/
def v_pT_classified (p T : ℚ) : Except DomainError ℚ :=
  match region_pT p T with
  | .error e => .error e
  | .ok r => v_pT p T r

/-- Modelled from the spec: `s_pT` driven through `region_pT`. -/
def s_pT_classified (p T : ℚ) : Except DomainError ℚ :=
  match region_pT p T with
  | .error e => .error e
  | .ok r => s_pT p T r

/-- Modelled from the spec: `h_pT` driven through `region_pT`. -/
def h_pT_classified (p T : ℚ) : Except DomainError ℚ :=
  match region_pT p T with
  | .error e => .error e
  | .ok r => h_pT p T r

/-- Modelled from the spec: `R2_Bbc_h_p` (IF97 eq 21), the region
2b/2c dividing enthalpy as a function of pressure. -/
def R2_Bbc_h_p (p : ℚ) : ℚ :=
  2652.6571908428 + sqrtQ ((p - 4.5257578905948) / 0.00012809002730136)

/-- Modelled from the spec: backward T(p,h) for region 1 (IF97 eq 11). -/
def T_ph_R1 (p h : ℚ) : ℚ :=
  let η : ℚ := h / 2500 + 1
  (-238.72489924521)
  + 404.21188637945 * η
  + 113.49746881718 * η^(2 : ℤ)
  + (-5.8457616048039) * η^(6 : ℤ)
  + (-0.00015285482413140) * η^(22 : ℤ)
  + (-0.0000010866707695377) * η^(32 : ℤ)
  + (-13.391744872602) * p
  + 43.211039183559 * p * η
  + (-54.010067170506) * p * η^(2 : ℤ)
  + 30.535892203916 * p * η^(3 : ℤ)
  + (-6.5964749423638) * p * η^(4 : ℤ)
  + 0.0093965400878363 * p * η^(10 : ℤ)
  + 0.00000011573647505340 * p * η^(32 : ℤ)
  + (-0.000025858641282073) * p^(2 : ℤ) * η^(10 : ℤ)
  + (-0.40644363084799e-8) * p^(2 : ℤ) * η^(32 : ℤ)
  + 0.66456186191635e-7 * p^(3 : ℤ) * η^(10 : ℤ)
  + 0.80670734103027e-10 * p^(3 : ℤ) * η^(32 : ℤ)
  + (-0.93477771213947e-12) * p^(4 : ℤ) * η^(32 : ℤ)
  + 0.58265442020601e-14 * p^(5 : ℤ) * η^(32 : ℤ)
  + (-0.15020185953503e-16) * p^(6 : ℤ) * η^(32 : ℤ)

/-- Modelled from the spec: backward T(p,h) for subregion 2a (IF97 eq 22). -/
def T_ph_R2a (p h : ℚ) : ℚ :=
  let η : ℚ := h / 2000 - 2.1
  1089.8952318288
  + 849.51654495535 * η
  + (-107.81748091826) * η^(2 : ℤ)
  + 33.153654801263 * η^(3 : ℤ)
  + (-7.4232016790248) * η^(7 : ℤ)
  + 11.765048724356 * η^(20 : ℤ)
  + 1.8445749355790 * p
  + (-4.1792700549624) * p * η
  + 6.2478196935812 * p * η^(2 : ℤ)
  + (-17.344563108114) * p * η^(3 : ℤ)
  + (-200.58176862096) * p * η^(7 : ℤ)
  + 271.96065473796 * p * η^(9 : ℤ)
  + (-455.11318285818) * p * η^(11 : ℤ)
  + 3091.9688604755 * p * η^(18 : ℤ)
  + 252266.40357872 * p * η^(44 : ℤ)
  + (-0.0061707422868339) * p^(2 : ℤ)
  + (-0.31078046629583) * p^(2 : ℤ) * η^(2 : ℤ)
  + 11.670873077107 * p^(2 : ℤ) * η^(7 : ℤ)
  + 128127984.04046 * p^(2 : ℤ) * η^(36 : ℤ)
  + (-985549096.23276) * p^(2 : ℤ) * η^(38 : ℤ)
  + 2822454697.3002 * p^(2 : ℤ) * η^(40 : ℤ)
  + (-3594897141.0703) * p^(2 : ℤ) * η^(42 : ℤ)
  + 1722734991.3197 * p^(2 : ℤ) * η^(44 : ℤ)
  + (-13551.334240775) * p^(3 : ℤ) * η^(24 : ℤ)
  + 12848734.664650 * p^(3 : ℤ) * η^(44 : ℤ)
  + 1.3865724283226 * p^(4 : ℤ) * η^(12 : ℤ)
  + 235988.32556514 * p^(4 : ℤ) * η^(32 : ℤ)
  + (-13105236.545054) * p^(4 : ℤ) * η^(44 : ℤ)
  + 7399.9835474766 * p^(5 : ℤ) * η^(32 : ℤ)
  + (-551966.97030060) * p^(5 : ℤ) * η^(36 : ℤ)
  + 3715408.5996233 * p^(5 : ℤ) * η^(42 : ℤ)
  + 19127.729239660 * p^(6 : ℤ) * η^(34 : ℤ)
  + (-415351.64835634) * p^(6 : ℤ) * η^(44 : ℤ)
  + (-62.459855192507) * p^(7 : ℤ) * η^(28 : ℤ)

/-- Modelled from the spec: backward T(p,h) for subregion 2b (IF97 eq 23). -/
def T_ph_R2b (p h : ℚ) : ℚ :=
  let η : ℚ := h / 2000 - 2.6
  let q : ℚ := p - 2
  1489.5041079516
  + 743.07798314034 * η
  + (-97.708318797837) * η^(2 : ℤ)
  + 2.4742464705674 * η^(12 : ℤ)
  + (-0.63281320016026) * η^(18 : ℤ)
  + 1.1385952129658 * η^(24 : ℤ)
  + (-0.47811863648625) * η^(28 : ℤ)
  + 0.0085208123431544 * η^(40 : ℤ)
  + 0.93747147377932 * q
  + 3.3593118604916 * q * η^(2 : ℤ)
  + 3.3809355601454 * q * η^(6 : ℤ)
  + 0.16844539671904 * q * η^(12 : ℤ)
  + 0.73875745236695 * q * η^(18 : ℤ)
  + (-0.47128737436186) * q * η^(24 : ℤ)
  + 0.15020273139707 * q * η^(28 : ℤ)
  + (-0.0021764114219750) * q * η^(40 : ℤ)
  + (-0.021810755324761) * q^(2 : ℤ) * η^(2 : ℤ)
  + (-0.10829784403677) * q^(2 : ℤ) * η^(8 : ℤ)
  + (-0.046333324635812) * q^(2 : ℤ) * η^(18 : ℤ)
  + 0.000071280351959551 * q^(2 : ℤ) * η^(40 : ℤ)
  + 0.00011032831789999 * q^(3 : ℤ) * η
  + 0.00018955248387902 * q^(3 : ℤ) * η^(2 : ℤ)
  + 0.0030891541160537 * q^(3 : ℤ) * η^(12 : ℤ)
  + 0.0013555504554949 * q^(3 : ℤ) * η^(24 : ℤ)
  + 0.00000028640237477456 * q^(4 : ℤ) * η^(2 : ℤ)
  + (-0.000010779857357512) * q^(4 : ℤ) * η^(12 : ℤ)
  + (-0.000076462712454814) * q^(4 : ℤ) * η^(18 : ℤ)
  + 0.000014052392818316 * q^(4 : ℤ) * η^(24 : ℤ)
  + (-0.000031083814331434) * q^(4 : ℤ) * η^(28 : ℤ)
  + (-0.0000010302738212103) * q^(4 : ℤ) * η^(40 : ℤ)
  + 0.00000028217281635040 * q^(5 : ℤ) * η^(18 : ℤ)
  + 0.0000012704902271945 * q^(5 : ℤ) * η^(24 : ℤ)
  + 0.000000073803353468292 * q^(5 : ℤ) * η^(40 : ℤ)
  + (-0.000000011030139238909) * q^(6 : ℤ) * η^(28 : ℤ)
  + (-0.81456365207833e-13) * q^(7 : ℤ) * η^(2 : ℤ)
  + (-0.25180545682962e-10) * q^(7 : ℤ) * η^(28 : ℤ)
  + (-0.17565233969407e-17) * q^(9 : ℤ) * η
  + 0.86934156344163e-14 * q^(9 : ℤ) * η^(40 : ℤ)

/-- Modelled from the spec: backward T(p,h) for subregion 2c (IF97 eq 24). -/
def T_ph_R2c (p h : ℚ) : ℚ :=
  let η : ℚ := h / 2000 - 1.8
  let q : ℚ := p + 25
  (-3236839855524.2) * q^(-7 : ℤ)
  + 7326335090218.1 * q^(-7 : ℤ) * η^(4 : ℤ)
  + 358250899454.47 * q^(-6 : ℤ)
  + (-583401318515.90) * q^(-6 : ℤ) * η^(2 : ℤ)
  + (-10783068217.470) * q^(-5 : ℤ)
  + 20825544563.171 * q^(-5 : ℤ) * η^(2 : ℤ)
  + 610747.83564516 * q^(-2 : ℤ)
  + 859777.22535580 * q^(-2 : ℤ) * η
  + (-25745.723604170) * q^(-1 : ℤ)
  + 31081.088422714 * q^(-1 : ℤ) * η^(2 : ℤ)
  + 1208.2315865936
  + 482.19755109255 * η
  + 3.7966001272486 * q * η^(4 : ℤ)
  + (-10.842984880077) * q * η^(8 : ℤ)
  + (-0.045364172676660) * q^(2 : ℤ) * η^(4 : ℤ)
  + 0.14559115658698e-12 * q^(6 : ℤ)
  + 0.11261597407230e-11 * q^(6 : ℤ) * η
  + (-0.17804982240686e-10) * q^(6 : ℤ) * η^(4 : ℤ)
  + 0.12324579690832e-6 * q^(6 : ℤ) * η^(10 : ℤ)
  + (-0.11606921130984e-5) * q^(6 : ℤ) * η^(12 : ℤ)
  + 0.000027846367088554 * q^(6 : ℤ) * η^(16 : ℤ)
  + (-0.00059270038474176) * q^(6 : ℤ) * η^(20 : ℤ)
  + 0.0012918582991878 * q^(6 : ℤ) * η^(22 : ℤ)

/-- Modelled from the spec: region 2 backward T(p,h) with the 2a/2b/2c
subregion dispatch (2a below 4 MPa; above, 2c below the `R2_Bbc_h_p`
enthalpy and 2b at or above it). -/
def T_ph_R2 (p h : ℚ) : ℚ :=
  if p ≤ 4 then T_ph_R2a p h
  else if h < R2_Bbc_h_p p then T_ph_R2c p h
  else T_ph_R2b p h

/-- Modelled from the spec: `region_ph(p,h)` brackets the valid region
from pressure and enthalpy using the saturation curve and the forward
enthalpy evaluators at the bounding temperatures; two-phase states and
region 3 states are unsupported here and fail with a DomainError, per
the spec's design note that region-3 inputs are explicitly unsupported. -/
def region_ph (p h : ℚ) : Except DomainError ℕ :=
  if p ≤ 0 ∨ 100 < p then .error .envelope
  else if p ≤ psFormula 623.15 then
    if h ≤ hR1 p (tsFormula p) then .ok 1
    else if h < hR2 p (tsFormula p) then .error .noRegion
    else .ok 2
  else
    if h ≤ hR1 p 623.15 then .ok 1
    else if h < hR2 p (B23_T_p p) then .error .noRegion
    else .ok 2

/-- Modelled from the spec: `T_ph(p,h)` classifies via `region_ph` and
applies the regional backward correlation; classification failures are
surfaced unchanged. -/
def T_ph (p h : ℚ) : Except DomainError ℚ :=
  match region_ph p h with
  | .error e => .error e
  | .ok r =>
    if r = 1 then .ok (T_ph_R1 p h)
    else if r = 2 then .ok (T_ph_R2 p h)
    else .error .unsupportedRegion

/-- Modelled from the spec: backward T(p,s) for region 1 (IF97 eq 13). -/
def T_ps_R1 (p s : ℚ) : ℚ :=
  let σ : ℚ := s + 2
  174.78268058307
  + 34.806930892873 * σ
  + 6.5292584978455 * σ^(2 : ℤ)
  + 0.33039981775489 * σ^(3 : ℤ)
  + (-0.00000019281382923196) * σ^(11 : ℤ)
  + (-0.24909197244573e-22) * σ^(31 : ℤ)
  + (-0.26107636489332) * p
  + 0.22592965981586 * p * σ
  + (-0.064256463395226) * p * σ^(2 : ℤ)
  + 0.0078876289270526 * p * σ^(3 : ℤ)
  + 0.00000000035672110607366 * p * σ^(12 : ℤ)
  + 0.17332496994895e-23 * p * σ^(31 : ℤ)
  + 0.00056608900654837 * p^(2 : ℤ)
  + (-0.00032635483139717) * p^(2 : ℤ) * σ
  + 0.000044778286690632 * p^(2 : ℤ) * σ^(2 : ℤ)
  + (-0.00000000051322156908507) * p^(2 : ℤ) * σ^(9 : ℤ)
  + (-0.42522657042207e-25) * p^(2 : ℤ) * σ^(31 : ℤ)
  + 0.00000000000026400441360689 * p^(3 : ℤ) * σ^(10 : ℤ)
  + 0.78124600459723e-28 * p^(3 : ℤ) * σ^(32 : ℤ)
  + (-0.30732199903668e-30) * p^(4 : ℤ) * σ^(32 : ℤ)

/-- Modelled from the spec: backward T(p,s) for subregion 2a (IF97
eq 25), built on quarter powers of the pressure. -/
def T_ps_R2a (p s : ℚ) : ℚ :=
  let β : ℚ := sqrtQ (sqrtQ p)
  let σ : ℚ := s / 2 - 2
  (-392359.83861984) * β^(-6 : ℤ) * σ^(-24 : ℤ)
  + 515265.73827270 * β^(-6 : ℤ) * σ^(-23 : ℤ)
  + 40482.443161048 * β^(-6 : ℤ) * σ^(-19 : ℤ)
  + (-321.93790923902) * β^(-6 : ℤ) * σ^(-13 : ℤ)
  + 96.961424218694 * β^(-6 : ℤ) * σ^(-11 : ℤ)
  + (-22.867846371773) * β^(-6 : ℤ) * σ^(-10 : ℤ)
  + (-449429.14124357) * β^(-5 : ℤ) * σ^(-19 : ℤ)
  + (-5011.8336020166) * β^(-5 : ℤ) * σ^(-15 : ℤ)
  + 0.35684463560015 * β^(-5 : ℤ) * σ^(-6 : ℤ)
  + 44235.335848190 * β^(-4 : ℤ) * σ^(-26 : ℤ)
  + (-13673.388811708) * β^(-4 : ℤ) * σ^(-21 : ℤ)
  + 421632.60207864 * β^(-4 : ℤ) * σ^(-17 : ℤ)
  + 22516.925837475 * β^(-4 : ℤ) * σ^(-16 : ℤ)
  + 474.42144865646 * β^(-4 : ℤ) * σ^(-9 : ℤ)
  + (-149.31130797647) * β^(-4 : ℤ) * σ^(-8 : ℤ)
  + (-197811.26320452) * β^(-3 : ℤ) * σ^(-15 : ℤ)
  + (-23554.399470760) * β^(-3 : ℤ) * σ^(-14 : ℤ)
  + (-19070.616302076) * β^(-2 : ℤ) * σ^(-26 : ℤ)
  + 55375.669883164 * β^(-2 : ℤ) * σ^(-13 : ℤ)
  + 3829.3691437363 * β^(-2 : ℤ) * σ^(-9 : ℤ)
  + (-603.91860580567) * β^(-2 : ℤ) * σ^(-7 : ℤ)
  + 1936.3102620331 * β^(-1 : ℤ) * σ^(-27 : ℤ)
  + 4266.0643698610 * β^(-1 : ℤ) * σ^(-25 : ℤ)
  + (-5978.0638872718) * β^(-1 : ℤ) * σ^(-11 : ℤ)
  + (-704.01463926862) * β^(-1 : ℤ) * σ^(-6 : ℤ)
  + 338.36784107553 * β * σ
  + 20.862786635187 * β * σ^(4 : ℤ)
  + 0.033834172656196 * β * σ^(8 : ℤ)
  + (-0.000043124428414893) * β * σ^(11 : ℤ)
  + 166.53791356412 * β^(2 : ℤ)
  + (-139.86292055898) * β^(2 : ℤ) * σ
  + (-0.78849547999872) * β^(2 : ℤ) * σ^(5 : ℤ)
  + 0.072132411753872 * β^(2 : ℤ) * σ^(6 : ℤ)
  + (-0.0059754839398283) * β^(2 : ℤ) * σ^(10 : ℤ)
  + (-0.000012141358953904) * β^(2 : ℤ) * σ^(14 : ℤ)
  + 0.00000023227096733871 * β^(2 : ℤ) * σ^(16 : ℤ)
  + (-10.538463566194) * β^(3 : ℤ)
  + 2.0718925496502 * β^(3 : ℤ) * σ^(4 : ℤ)
  + (-0.072193155260427) * β^(3 : ℤ) * σ^(9 : ℤ)
  + 0.00000020749887081120 * β^(3 : ℤ) * σ^(17 : ℤ)
  + (-0.018340657911379) * β^(4 : ℤ) * σ^(7 : ℤ)
  + 0.00000029036272348696 * β^(4 : ℤ) * σ^(18 : ℤ)
  + 0.21037527893619 * β^(5 : ℤ) * σ^(3 : ℤ)
  + 0.00025681239729999 * β^(5 : ℤ) * σ^(15 : ℤ)
  + (-0.012799002933781) * β^(6 : ℤ) * σ^(5 : ℤ)
  + (-0.0000082198102652018) * β^(6 : ℤ) * σ^(18 : ℤ)

/-- Modelled from the spec: backward T(p,s) for subregion 2b (IF97 eq 26). -/
def T_ps_R2b (p s : ℚ) : ℚ :=
  let σ : ℚ := 10 - s / 0.7853
  316876.65083497 * p^(-6 : ℤ)
  + 20.864175881858 * p^(-6 : ℤ) * σ^(11 : ℤ)
  + (-398593.99803599) * p^(-5 : ℤ)
  + (-21.816058518877) * p^(-5 : ℤ) * σ^(11 : ℤ)
  + 223697.85194242 * p^(-4 : ℤ)
  + (-2784.1703445817) * p^(-4 : ℤ) * σ
  + 9.9207436071480 * p^(-4 : ℤ) * σ^(11 : ℤ)
  + (-75197.512299157) * p^(-3 : ℤ)
  + 2970.8605951158 * p^(-3 : ℤ) * σ
  + (-3.4406878548526) * p^(-3 : ℤ) * σ^(11 : ℤ)
  + 0.38815564249115 * p^(-3 : ℤ) * σ^(12 : ℤ)
  + 17511.295085750 * p^(-2 : ℤ)
  + (-1423.7112854449) * p^(-2 : ℤ) * σ
  + 1.0943803364167 * p^(-2 : ℤ) * σ^(6 : ℤ)
  + 0.89971619308495 * p^(-2 : ℤ) * σ^(10 : ℤ)
  + (-3375.9740098958) * p^(-1 : ℤ)
  + 471.62885818355 * p^(-1 : ℤ) * σ
  + (-1.9188241993679) * p^(-1 : ℤ) * σ^(5 : ℤ)
  + 0.41078580492196 * p^(-1 : ℤ) * σ^(8 : ℤ)
  + (-0.33465378172097) * p^(-1 : ℤ) * σ^(9 : ℤ)
  + 1387.0034777505
  + (-406.63326195838) * σ
  + 41.727347159610 * σ^(2 : ℤ)
  + 2.1932549434532 * σ^(4 : ℤ)
  + (-1.0320050009077) * σ^(5 : ℤ)
  + 0.35882943516703 * σ^(6 : ℤ)
  + 0.0052511453726066 * σ^(9 : ℤ)
  + 12.838916450705 * p
  + (-2.8642437219381) * p * σ
  + 0.56912683664855 * p * σ^(2 : ℤ)
  + (-0.099962954584931) * p * σ^(3 : ℤ)
  + (-0.0032632037778459) * p * σ^(7 : ℤ)
  + 0.00023320922576723 * p * σ^(8 : ℤ)
  + (-0.15334809857450) * p^(2 : ℤ)
  + 0.029072288239902 * p^(2 : ℤ) * σ
  + 0.00037534702741167 * p^(2 : ℤ) * σ^(5 : ℤ)
  + 0.0017296691702411 * p^(3 : ℤ)
  + (-0.00038556050844504) * p^(3 : ℤ) * σ
  + (-0.000035017712292608) * p^(3 : ℤ) * σ^(3 : ℤ)
  + (-0.000014566393631492) * p^(4 : ℤ)
  + 0.0000056420857267269 * p^(4 : ℤ) * σ
  + 0.000000041286150074605 * p^(5 : ℤ)
  + (-0.000000020684671118824) * p^(5 : ℤ) * σ
  + 0.0000000016409393674725 * p^(5 : ℤ) * σ^(2 : ℤ)

/-- Modelled from the spec: backward T(p,s) for subregion 2c (IF97 eq 27). -/
def T_ps_R2c (p s : ℚ) : ℚ :=
  let σ : ℚ := 2 - s / 2.9251
  909.68501005365 * p^(-2 : ℤ)
  + 2404.5667088420 * p^(-2 : ℤ) * σ
  + (-591.62326387130) * p^(-1 : ℤ)
  + 541.45404128074
  + (-270.98308411192) * σ
  + 979.76525097926 * σ^(2 : ℤ)
  + (-469.66772959435) * σ^(3 : ℤ)
  + 14.399274604723 * p
  + (-19.104204230429) * p * σ
  + 5.3299167111971 * p * σ^(3 : ℤ)
  + (-21.252975375934) * p * σ^(4 : ℤ)
  + (-0.31147334413760) * p^(2 : ℤ)
  + 0.60334840894623 * p^(2 : ℤ) * σ
  + (-0.042764839702509) * p^(2 : ℤ) * σ^(2 : ℤ)
  + 0.0058185597255259 * p^(3 : ℤ)
  + (-0.014597008284753) * p^(3 : ℤ) * σ
  + 0.0056631175631027 * p^(3 : ℤ) * σ^(5 : ℤ)
  + (-0.000076155864584577) * p^(4 : ℤ)
  + 0.00022440342919332 * p^(4 : ℤ) * σ
  + (-0.000012561095013413) * p^(4 : ℤ) * σ^(4 : ℤ)
  + 0.00000063323132660934 * p^(5 : ℤ)
  + (-0.0000020541989675375) * p^(5 : ℤ) * σ
  + 0.000000036405370390082 * p^(5 : ℤ) * σ^(2 : ℤ)
  + (-0.0000000029759897789215) * p^(6 : ℤ)
  + 0.000000010136618529763 * p^(6 : ℤ) * σ
  + 0.0000000000059925719692351 * p^(7 : ℤ)
  + (-0.000000000020677870105164) * p^(7 : ℤ) * σ
  + (-0.000000000020874278181886) * p^(7 : ℤ) * σ^(3 : ℤ)
  + 0.00000000010162166825089 * p^(7 : ℤ) * σ^(4 : ℤ)
  + (-0.00000000016429828281347) * p^(7 : ℤ) * σ^(5 : ℤ)

/-- Modelled from the spec: region 2 backward T(p,s) with the 2a/2b/2c
subregion dispatch (2a below 4 MPa; above, 2b for entropies at or above
5.85 kJ/(kg K) and 2c below). -/
def T_ps_R2 (p s : ℚ) : ℚ :=
  if p ≤ 4 then T_ps_R2a p s
  else if s < 5.85 then T_ps_R2c p s
  else T_ps_R2b p s

/-- Modelled from the spec: `region_ps(p,s)`, the entropy analogue of
`region_ph`; two-phase and region 3 states fail with a DomainError. -/
def region_ps (p s : ℚ) : Except DomainError ℕ :=
  if p ≤ 0 ∨ 100 < p then .error .envelope
  else if p ≤ psFormula 623.15 then
    if s ≤ sR1 p (tsFormula p) then .ok 1
    else if s < sR2 p (tsFormula p) then .error .noRegion
    else .ok 2
  else
    if s ≤ sR1 p 623.15 then .ok 1
    else if s < sR2 p (B23_T_p p) then .error .noRegion
    else .ok 2

/-- Modelled from the spec: `T_ps(p,s)` classifies via `region_ps` and
applies the regional backward correlation; classification failures are
surfaced unchanged. -/
def T_ps (p s : ℚ) : Except DomainError ℚ :=
  match region_ps p s with
  | .error e => .error e
  | .ok r =>
    if r = 1 then .ok (T_ps_R1 p s)
    else if r = 2 then .ok (T_ps_R2 p s)
    else .error .unsupportedRegion

/-- Modelled from the spec: `viscosity_ideal(theta)`, the dilute-gas
viscosity term, a rational function of the reduced temperature. -/
def viscosity_ideal (θ : ℚ) : ℚ :=
  100 * sqrtQ θ /
    (1.67752 + 2.20462 / θ + 0.6366564 / θ^(2 : ℤ) + (-0.241605) / θ^(3 : ℤ))

/-- Modelled from the spec: the double polynomial of the residual
viscosity term, in powers of (1/theta - 1) and (delta - 1). -/
def viscosity_second_poly (δ θ : ℚ) : ℚ :=
  let x : ℚ := 1 / θ - 1
  let y : ℚ := δ - 1
  0.520094
  + 0.0850895 * x
  + (-1.08374) * x^(2 : ℤ)
  + (-0.289555) * x^(3 : ℤ)
  + 0.222531 * y
  + 0.999115 * x * y
  + 1.88797 * x^(2 : ℤ) * y
  + 1.26613 * x^(3 : ℤ) * y
  + 0.120573 * x^(5 : ℤ) * y
  + (-0.281378) * y^(2 : ℤ)
  + (-0.906851) * x * y^(2 : ℤ)
  + (-0.772479) * x^(2 : ℤ) * y^(2 : ℤ)
  + (-0.489837) * x^(3 : ℤ) * y^(2 : ℤ)
  + (-0.257040) * x^(4 : ℤ) * y^(2 : ℤ)
  + 0.161913 * y^(3 : ℤ)
  + 0.257399 * x * y^(3 : ℤ)
  + (-0.0325372) * y^(4 : ℤ)
  + 0.0698452 * x^(3 : ℤ) * y^(4 : ℤ)
  + 0.00872102 * x^(4 : ℤ) * y^(5 : ℤ)
  + (-0.00435673) * x^(3 : ℤ) * y^(6 : ℤ)
  + (-0.000593264) * x^(5 : ℤ) * y^(6 : ℤ)

/-- Modelled from the spec: `viscosity_second(delta,theta)`, the
residual viscosity term in its prescribed exponential form. -/
def viscosity_second (δ θ : ℚ) : ℚ := expQ (δ * viscosity_second_poly δ θ)

/-- Modelled from the spec: `eta_vT(v,T)` converts specific volume to
reduced density delta = 1/(v rho*) with rho* = 322 kg/m^3, reduced
temperature theta = T/T* with T* = 647.096 K, and combines the two
viscosity terms with the reference scale mu* = 1e-6 Pa s. -/
def eta_vT (v T : ℚ) : ℚ :=
  let δ : ℚ := 1 / (v * 322)
  let θ : ℚ := T / 647.096
  0.000001 * (viscosity_ideal θ * viscosity_second δ θ)

/-- Real-valued analytic mirror of `gamma_ideal_R2`, used to state the
differential facts behind the ideal/residual split. -/
noncomputable def gammaIdealR2Real (p t : ℝ) : ℝ :=
  Real.log p
  + (-9.6927686500217) * t^(0 : ℤ)
  + 10.086655968018 * t^(1 : ℤ)
  + (-0.0056087911283020) * t^(-5 : ℤ)
  + 0.071452738081455 * t^(-4 : ℤ)
  + (-0.40710498223928) * t^(-3 : ℤ)
  + 1.4240819171444 * t^(-2 : ℤ)
  + (-4.3839511319450) * t^(-1 : ℤ)
  + (-0.28408632460772) * t^(2 : ℤ)
  + 0.021268463753307 * t^(3 : ℤ)

/-- Real-valued analytic mirror of `gamma_pi_ideal_R2`: a function of
the reduced pressure alone. -/
noncomputable def gammaPiIdealR2Real (p : ℝ) : ℝ := 1 / p

/-- Real-valued analytic mirror of `gamma_tau_ideal_R2`: a function of
the reduced temperature alone. -/
noncomputable def gammaTauIdealR2Real (t : ℝ) : ℝ :=
  10.086655968018
  + (-5) * (-0.0056087911283020) * t^(-6 : ℤ)
  + (-4) * 0.071452738081455 * t^(-5 : ℤ)
  + (-3) * (-0.40710498223928) * t^(-4 : ℤ)
  + (-2) * 1.4240819171444 * t^(-3 : ℤ)
  + (-1) * (-4.3839511319450) * t^(-2 : ℤ)
  + 2 * (-0.28408632460772) * t^(1 : ℤ)
  + 3 * 0.021268463753307 * t^(2 : ℤ)

/-- Claim C1, counterexample: the state point (25 MPa, 650 K) lies
inside the overall validity envelope, yet `region_pT` returns the
region-3 code, which is not in the claimed code set {1,2,5}. -/
theorem region_pT_region_three_counterexample :
    inEnvelope 25 650 ∧ region_pT 25 650 = .ok 3 ∧
    region_pT 25 650 ≠ .ok 1 ∧ region_pT 25 650 ≠ .ok 2 ∧ region_pT 25 650 ≠ .ok 5 := by
  with_unfolding_all decide

/-- Claim C1 (amended): for every state point (p,T) inside the overall
validity envelope, `region_pT` succeeds and returns exactly one region
code, drawn from {1,2,3,5}; repeated evaluation yields the same single
code because the result is uniquely determined. -/
theorem region_pT_total_on_envelope (p T : ℚ) (h : inEnvelope p T) :
    ∃ r, (r = 1 ∨ r = 2 ∨ r = 3 ∨ r = 5) ∧ region_pT p T = .ok r ∧
      ∀ r', region_pT p T = .ok r' → r' = r := by
  obtain ⟨h1, h2, h3, h4⟩ := h
  have hguard : ¬(p ≤ 0 ∨ 100 < p ∨ T < 273.15 ∨ 2273.15 < T) := by
    push_neg
    exact ⟨h1, h2, h3, h4⟩
  unfold region_pT
  rw [if_neg hguard]
  split_ifs with hc1 hc2 hc3
  · exact ⟨5, by tauto, rfl, fun r' hr' => (Except.ok.inj hr').symm⟩
  · exact ⟨1, by tauto, rfl, fun r' hr' => (Except.ok.inj hr').symm⟩
  · exact ⟨2, by tauto, rfl, fun r' hr' => (Except.ok.inj hr').symm⟩
  · exact ⟨3, by tauto, rfl, fun r' hr' => (Except.ok.inj hr').symm⟩

/-- Witness for C1 at the concrete envelope point (3 MPa, 300 K). -/
theorem region_pT_total_on_envelope_witness :
    ∃ r, (r = 1 ∨ r = 2 ∨ r = 3 ∨ r = 5) ∧ region_pT 3 300 = .ok r ∧
      ∀ r', region_pT 3 300 = .ok r' → r' = r :=
  region_pT_total_on_envelope 3 300 (by with_unfolding_all decide)

/-- Claim C2, counterexample: at (30 MPa, 700 K) — the spec's own
region-2 reference point — the region-5 test fails, no saturation
comparison exists at this pressure or temperature (both saturation
curves are out of range), and T is not below `B23_T_p p` (698.15 K), so
the claimed procedure would return the region-3 code; `region_pT`
returns region 2. -/
theorem region_pT_b23_routing_counterexample :
    ¬(1073.15 < (700 : ℚ) ∧ (30 : ℚ) < 50) ∧
    Ts_p 30 = .error .saturationRange ∧
    ps_T 700 = .error .saturationRange ∧
    B23_T_p 30 < 700 ∧ ¬((700 : ℚ) < B23_T_p 30) ∧
    region_pT 30 700 ≠ .ok 3 ∧ region_pT 30 700 = .ok 2 := by
  with_unfolding_all decide

/-- Claim C2 (amended): `region_pT` implements the ordered decision
procedure: region 5 when T exceeds 1073.15 K and p is below 50 MPa;
otherwise region 1 when T is at or below the critical temperature and p
is at or above the saturation pressure for T (equivalently, T at or
below the saturation temperature for p); otherwise region 2 when T is
at or below 623.15 K or at or above `B23_T_p p`; otherwise the region-3
code. -/
theorem region_pT_ordered_procedure (p T : ℚ) (h : inEnvelope p T) :
    (1073.15 < T ∧ p < 50 → region_pT p T = .ok 5) ∧
    (¬(1073.15 < T ∧ p < 50) →
      (T ≤ 647.096 ∧ psFormula T ≤ p → region_pT p T = .ok 1) ∧
      (¬(T ≤ 647.096 ∧ psFormula T ≤ p) →
        (T ≤ 623.15 ∨ B23_T_p p ≤ T → region_pT p T = .ok 2) ∧
        (¬(T ≤ 623.15 ∨ B23_T_p p ≤ T) → region_pT p T = .ok 3))) := by
  obtain ⟨h1, h2, h3, h4⟩ := h
  have hguard : ¬(p ≤ 0 ∨ 100 < p ∨ T < 273.15 ∨ 2273.15 < T) := by
    push_neg
    exact ⟨h1, h2, h3, h4⟩
  unfold region_pT
  rw [if_neg hguard]
  refine ⟨fun hc1 => ?_, fun hc1 => ⟨fun hc2 => ?_, fun hc2 => ⟨fun hc3 => ?_, fun hc3 => ?_⟩⟩⟩
  · rw [if_pos hc1]
  · rw [if_neg hc1, if_pos hc2]
  · rw [if_neg hc1, if_neg hc2, if_pos hc3]
  · rw [if_neg hc1, if_neg hc2, if_neg hc3]

/-- Witness for C2: the procedure applied at (3 MPa, 300 K) lands in
region 1 through the saturation branch. -/
theorem region_pT_ordered_procedure_witness : region_pT 3 300 = .ok 1 :=
  ((region_pT_ordered_procedure 3 300 (by with_unfolding_all decide)).2
    (by with_unfolding_all decide)).1 (by with_unfolding_all decide)

/-- Claim C4: the forward evaluators reproduce the published IF97
verification values at the region-1 point (3 MPa, 300 K) and the
region-2 point (0.0035 MPa, 300 K), within half a unit of the last
published digit. -/
theorem forward_reference_values :
    v_pT 3 300 1 = .ok (vR1 3 300) ∧ |vR1 3 300 - 0.00100215168| < 1e-10 ∧
    h_pT 3 300 1 = .ok (hR1 3 300) ∧ |hR1 3 300 - 115.331273| < 1e-6 ∧
    s_pT 3 300 1 = .ok (sR1 3 300) ∧ |sR1 3 300 - 0.392294792| < 1e-8 ∧
    v_pT 0.0035 300 2 = .ok (vR2 0.0035 300) ∧ |vR2 0.0035 300 - 39.4913866| < 1e-6 ∧
    h_pT 0.0035 300 2 = .ok (hR2 0.0035 300) ∧ |hR2 0.0035 300 - 2549.91145| < 1e-5 ∧
    s_pT 0.0035 300 2 = .ok (sR2 0.0035 300) ∧ |sR2 0.0035 300 - 8.52238967| < 1e-7 :=
  ⟨by with_unfolding_all rfl, by with_unfolding_all decide,
   by with_unfolding_all rfl, by with_unfolding_all decide,
   by with_unfolding_all rfl, by with_unfolding_all decide,
   by with_unfolding_all rfl, by with_unfolding_all decide,
   by with_unfolding_all rfl, by with_unfolding_all decide,
   by with_unfolding_all rfl, by with_unfolding_all decide⟩

/-- Claim C5: classification failures surface as DomainErrors and are
never replaced by a default region: `region_pT` fails on the stated
envelope violations, `T_ph` and `T_ps` return exactly the error of
their region classifier, and the forward evaluators driven through
`region_pT` return exactly its error. -/
theorem domain_error_propagation :
    (∀ p T : ℚ, 100 < p ∨ T < 273.15 ∨ 2273.15 < T → region_pT p T = .error .envelope) ∧
    (∀ p h : ℚ, ∀ e, region_ph p h = .error e → T_ph p h = .error e) ∧
    (∀ p s : ℚ, ∀ e, region_ps p s = .error e → T_ps p s = .error e) ∧
    (∀ p T : ℚ, ∀ e, region_pT p T = .error e →
      v_pT_classified p T = .error e ∧ s_pT_classified p T = .error e ∧
      h_pT_classified p T = .error e) := by
  refine ⟨?_, ?_, ?_, ?_⟩
  · intro p T h
    unfold region_pT
    rw [if_pos (Or.inr h)]
  · intro p h e he
    unfold T_ph
    rw [he]
  · intro p s e he
    unfold T_ps
    rw [he]
  · intro p T e he
    unfold v_pT_classified s_pT_classified h_pT_classified
    rw [he]
    exact ⟨rfl, rfl, rfl⟩

/-- Witness for C5 at concrete out-of-envelope inputs. -/
theorem domain_error_propagation_witness :
    region_pT 200 300 = .error .envelope ∧
    T_ph 101 2000 = .error .envelope ∧
    T_ps 101 5 = .error .envelope ∧
    v_pT_classified 3 200 = .error .envelope ∧
    s_pT_classified 3 200 = .error .envelope ∧
    h_pT_classified 3 200 = .error .envelope :=
  ⟨domain_error_propagation.1 200 300 (by with_unfolding_all decide),
   domain_error_propagation.2.1 101 2000 .envelope (by with_unfolding_all decide),
   domain_error_propagation.2.2.1 101 5 .envelope (by with_unfolding_all decide),
   (domain_error_propagation.2.2.2 3 200 .envelope (by with_unfolding_all decide)).1,
   (domain_error_propagation.2.2.2 3 200 .envelope (by with_unfolding_all decide)).2.1,
   (domain_error_propagation.2.2.2 3 200 .envelope (by with_unfolding_all decide)).2.2⟩

/-- Claim C6: `ps_T` returns the saturation-pressure value for every
temperature in [273.15 K, 647.096 K] and fails with a DomainError for
every temperature outside that range. -/
theorem ps_T_validity (T : ℚ) :
    (273.15 ≤ T ∧ T ≤ 647.096 → ps_T T = .ok (psFormula T)) ∧
    (¬(273.15 ≤ T ∧ T ≤ 647.096) → ps_T T = .error .saturationRange) := by
  constructor
  · intro h
    unfold ps_T
    rw [if_pos h]
  · intro h
    unfold ps_T
    rw [if_neg h]

/-- Witness for C6 at 300 K (inside) and 700 K (outside). -/
theorem ps_T_validity_witness :
    ps_T 300 = .ok (psFormula 300) ∧ ps_T 700 = .error .saturationRange :=
  ⟨(ps_T_validity 300).1 (by with_unfolding_all decide),
   (ps_T_validity 700).2 (by with_unfolding_all decide)⟩

/-- Claim C7, counterexample: `Ts_p 1` differs from the claimed
372.755919 K by more than 80 K, and `ps_T 372.755919` is within 1e-6 of
0.1 MPa — not within 1e-6 of the claimed 1.0 MPa (372.755919 K is the
saturation temperature at 0.1 MPa, not at 1.0 MPa). -/
theorem saturation_roundtrip_counterexample :
    Ts_p 1 = .ok (tsFormula 1) ∧ 80 < |tsFormula 1 - 372.755919| ∧
    ps_T 372.755919 = .ok (psFormula 372.755919) ∧
    |psFormula 372.755919 - 0.1| < 1e-6 ∧ 0.89 < |psFormula 372.755919 - 1| :=
  ⟨by with_unfolding_all rfl, by with_unfolding_all decide,
   by with_unfolding_all rfl, by with_unfolding_all decide,
   by with_unfolding_all decide⟩

/-- Claim C7 (amended): the saturation curves invert each other:
`Ts_p 1` is within 1e-5 of the published 453.035632 K, `ps_T` of that
temperature is within 1e-6 of 1.0 MPa, and the direct composition
`ps_T (Ts_p 1)` round-trips 1.0 MPa to within 1e-6. -/
theorem saturation_roundtrip_amended :
    Ts_p 1 = .ok (tsFormula 1) ∧ |tsFormula 1 - 453.035632| < 1e-5 ∧
    ps_T 453.035632 = .ok (psFormula 453.035632) ∧
    |psFormula 453.035632 - 1| < 1e-6 ∧
    |psFormula (tsFormula 1) - 1| < 1e-6 :=
  ⟨by with_unfolding_all rfl, by with_unfolding_all decide,
   by with_unfolding_all rfl, by with_unfolding_all decide,
   by with_unfolding_all decide⟩

/-- Claim C8: `eta_vT` reduces the inputs to delta = 1/(v rho*) and
theta = T/T*, evaluates the dilute-gas term and the residual term at
those reduced coordinates, and returns mu* times their product, the
residual term being the prescribed exponential of delta times the fixed
double polynomial. -/
theorem eta_vT_combination (v T : ℚ) (_hv : 0 < v) (_hT : 0 < T) :
    eta_vT v T =
      0.000001 * (viscosity_ideal (T / 647.096) *
        viscosity_second (1 / (v * 322)) (T / 647.096)) ∧
    viscosity_second (1 / (v * 322)) (T / 647.096) =
      expQ ((1 / (v * 322)) * viscosity_second_poly (1 / (v * 322)) (T / 647.096)) :=
  ⟨rfl, rfl⟩

/-- Witness for C8 at the concrete input v = 1 m^3/kg, T = 300 K. -/
theorem eta_vT_combination_witness :
    eta_vT 1 300 =
      0.000001 * (viscosity_ideal ((300 : ℚ) / 647.096) *
        viscosity_second (1 / ((1 : ℚ) * 322)) ((300 : ℚ) / 647.096)) ∧
    viscosity_second (1 / ((1 : ℚ) * 322)) ((300 : ℚ) / 647.096) =
      expQ ((1 / ((1 : ℚ) * 322)) *
        viscosity_second_poly (1 / ((1 : ℚ) * 322)) ((300 : ℚ) / 647.096)) :=
  eta_vT_combination 1 300 (by norm_num) (by norm_num)

/-- Claim C10: in the region-2 ideal/residual split, the pi-derivative
of the ideal-gas kernel is a function of pi alone (one slope expression
in pi works for every tau) and the tau-derivative is a function of tau
alone; the one-argument library functions compute exactly those
derivatives; and only the residual derivatives depend on both reduced
variables (witnessed by explicit value changes). -/
theorem ideal_residual_split_R2 :
    (∀ p t : ℝ, 0 < p →
      HasDerivAt (fun x => gammaIdealR2Real x t) (gammaPiIdealR2Real p) p) ∧
    (∀ p t : ℝ, 0 < t →
      HasDerivAt (fun y => gammaIdealR2Real p y) (gammaTauIdealR2Real t) t) ∧
    (∀ q : ℚ, gammaPiIdealR2Real (q : ℝ) = ((gamma_pi_ideal_R2 q : ℚ) : ℝ)) ∧
    (∀ q : ℚ, gammaTauIdealR2Real (q : ℝ) = ((gamma_tau_ideal_R2 q : ℚ) : ℝ)) ∧
    gamma_pi_res_R2 1 1 ≠ gamma_pi_res_R2 1 2 ∧
    gamma_tau_res_R2 1 1 ≠ gamma_tau_res_R2 2 1 := by
  refine ⟨?_, ?_, ?_, ?_, ?_, ?_⟩
  · intro p t hp
    unfold gammaIdealR2Real gammaPiIdealR2Real
    simpa [one_div] using
      (((((((((Real.hasDerivAt_log hp.ne').add_const
        ((-9.6927686500217) * t^(0 : ℤ))).add_const
        (10.086655968018 * t^(1 : ℤ))).add_const
        ((-0.0056087911283020) * t^(-5 : ℤ))).add_const
        (0.071452738081455 * t^(-4 : ℤ))).add_const
        ((-0.40710498223928) * t^(-3 : ℤ))).add_const
        (1.4240819171444 * t^(-2 : ℤ))).add_const
        ((-4.3839511319450) * t^(-1 : ℤ))).add_const
        ((-0.28408632460772) * t^(2 : ℤ))).add_const
        (0.021268463753307 * t^(3 : ℤ))
  · intro p t ht
    unfold gammaIdealR2Real gammaTauIdealR2Real
    have h : ∀ m : ℤ, HasDerivAt (fun y : ℝ => y ^ m) ((m : ℝ) * t ^ (m - 1)) t :=
      fun m => hasDerivAt_zpow m t (Or.inl ht.ne')
    have big :=
      (((((((((hasDerivAt_const t (Real.log p)).add
        ((h 0).const_mul (-9.6927686500217))).add
        ((h 1).const_mul 10.086655968018)).add
        ((h (-5)).const_mul (-0.0056087911283020))).add
        ((h (-4)).const_mul 0.071452738081455)).add
        ((h (-3)).const_mul (-0.40710498223928))).add
        ((h (-2)).const_mul 1.4240819171444)).add
        ((h (-1)).const_mul (-4.3839511319450))).add
        ((h 2).const_mul (-0.28408632460772))).add
        ((h 3).const_mul 0.021268463753307)
    convert big using 1
    norm_num
    ring
  · intro q
    unfold gammaPiIdealR2Real gamma_pi_ideal_R2
    push_cast
    ring
  · intro q
    unfold gammaTauIdealR2Real gamma_tau_ideal_R2
    push_cast
    ring
  · with_unfolding_all decide
  · with_unfolding_all decide

/-- Witness for C10: the pi-derivative statement at pi = 3, tau = 2. -/
theorem ideal_residual_split_R2_witness :
    HasDerivAt (fun x => gammaIdealR2Real x 2) (gammaPiIdealR2Real 3) (3 : ℝ) :=
  ideal_residual_split_R2.1 3 2 (by norm_num)

end IF97
